import Mathlib

set_option maxHeartbeats 1000000
set_option maxRecDepth 8000

/-!
Verification development for the SUMO/Veins scenario-file generator
(`automated-file-generator.py`).  The Python worker logic is shallowly
embedded: external processes are modelled through an environment oracle
that decides each command's exit status and the files it creates, the
file system is a list of existing file names, and the pipeline is a pure
state-passing function mirroring `SumoWorker.create_files` branch by
branch.  The JavaScript longitude normalizer of the embedded Leaflet map
is modelled over exact rationals with the JS truncated remainder.
-/

namespace SumoGen

/-! ### Longitude normalization (MAP_HTML, `normalizeLon`, source lines 65-67) -/

/-- Truncation toward zero on rationals, the rounding used by the JS `%`
remainder operator. -/
def ratTrunc (q : ℚ) : ℤ := if 0 ≤ q then ⌊q⌋ else ⌈q⌉

/-- The JS remainder `x % m` (for `m > 0`): `x - m * trunc (x / m)`,
carrying the sign of the dividend. -/
def jsMod (x m : ℚ) : ℚ := x - m * (ratTrunc (x / m) : ℚ)

/-- `normalizeLon` from `getSelectionBounds` in the embedded map page:
`((lon + 180) % 360 + 360) % 360 - 180`. -/
def normalizeLon (lon : ℚ) : ℚ := jsMod (jsMod (lon + 180) 360 + 360) 360 - 180

lemma jsMod_bounds_nonneg (x : ℚ) (hx : 0 ≤ x) : 0 ≤ jsMod x 360 ∧ jsMod x 360 < 360 := by
  have hq : (0 : ℚ) ≤ x / 360 := by positivity
  have ht : ratTrunc (x / 360) = ⌊x / 360⌋ := if_pos hq
  have h1 : ((⌊x / 360⌋ : ℤ) : ℚ) ≤ x / 360 := Int.floor_le _
  have h2 : x / 360 < ⌊x / 360⌋ + 1 := Int.lt_floor_add_one _
  unfold jsMod
  rw [ht]
  constructor <;> linarith

lemma jsMod_bounds_neg (x : ℚ) (hx : x < 0) : -360 < jsMod x 360 ∧ jsMod x 360 ≤ 0 := by
  have hq : x / 360 < 0 := div_neg_of_neg_of_pos hx (by norm_num)
  have ht : ratTrunc (x / 360) = ⌈x / 360⌉ := if_neg (not_le.mpr hq)
  have h1 : x / 360 ≤ ((⌈x / 360⌉ : ℤ) : ℚ) := Int.le_ceil _
  have h2 : ((⌈x / 360⌉ : ℤ) : ℚ) < x / 360 + 1 := Int.ceil_lt_add_one _
  unfold jsMod
  rw [ht]
  constructor <;> linarith

lemma jsMod_eq_self (x : ℚ) (h0 : 0 ≤ x) (h1 : x < 360) : jsMod x 360 = x := by
  have hq : (0 : ℚ) ≤ x / 360 := by positivity
  have hfl : ⌊x / 360⌋ = 0 := by
    rw [Int.floor_eq_zero_iff]
    exact Set.mem_Ico.mpr ⟨hq, (div_lt_one (by norm_num : (0 : ℚ) < 360)).mpr h1⟩
  have ht : ratTrunc (x / 360) = 0 := by rw [ratTrunc, if_pos hq, hfl]
  unfold jsMod
  rw [ht]
  push_cast
  ring

lemma jsMod_sub_360 (x : ℚ) (h0 : 360 ≤ x) (h1 : x < 720) : jsMod x 360 = x - 360 := by
  have hq : (0 : ℚ) ≤ x / 360 := by positivity
  have hfl : ⌊x / 360⌋ = 1 := by
    rw [Int.floor_eq_iff]
    constructor
    · rw [le_div_iff₀ (by norm_num : (0 : ℚ) < 360)]
      push_cast
      linarith
    · rw [div_lt_iff₀ (by norm_num : (0 : ℚ) < 360)]
      push_cast
      linarith
  have ht : ratTrunc (x / 360) = 1 := by rw [ratTrunc, if_pos hq, hfl]
  unfold jsMod
  rw [ht]
  push_cast
  ring

lemma normalizeLon_mem (lon : ℚ) : -180 ≤ normalizeLon lon ∧ normalizeLon lon < 180 := by
  have hs : 0 ≤ jsMod (lon + 180) 360 + 360 := by
    rcases le_or_lt 0 (lon + 180) with h | h
    · linarith [(jsMod_bounds_nonneg (lon + 180) h).1]
    · linarith [(jsMod_bounds_neg (lon + 180) h).1]
  obtain ⟨ha, hb⟩ := jsMod_bounds_nonneg (jsMod (lon + 180) 360 + 360) hs
  unfold normalizeLon
  constructor <;> linarith

lemma normalizeLon_eq_self (lon : ℚ) (h0 : -180 ≤ lon) (h1 : lon < 180) :
    normalizeLon lon = lon := by
  have hx0 : (0 : ℚ) ≤ lon + 180 := by linarith
  have hx1 : lon + 180 < 360 := by linarith
  have e1 : jsMod (lon + 180) 360 = lon + 180 := jsMod_eq_self _ hx0 hx1
  unfold normalizeLon
  rw [e1, jsMod_sub_360 (lon + 180 + 360) (by linarith) (by linarith)]
  ring

/-! ### Data model of the pipeline (`SumoWorker`, source lines 82-318) -/

/-- A geographic bounding box as reported by the map selector. -/
structure BBox where
  south : ℚ
  north : ℚ
  west : ℚ
  east : ℚ
deriving DecidableEq

/-- The per-run configuration assembled by `SumoApp.handle_bounds` and consumed
by `SumoWorker.__init__` (filename, bbox, end_time, num_trips). -/
structure Config where
  filename : String
  bbox : BBox
  end_time : ℕ
  num_trips : ℕ
deriving DecidableEq

/-- An external command invocation, carrying the data of the argument list the
worker builds for each tool (scripts are invoked through `sys.executable`). -/
inductive Cmd where
  | osmGet (script : String) (bbox : BBox) (pfx : String)
  | netconvert (osmFile netFile : String)
  | polyconvert (osmFile typemap polyFile : String)
  | randomTrips (script netFile tripFile : String) (endTime : ℕ) (period : ℚ)
  | duarouter (netFile tripFile routeFile : String)
deriving DecidableEq

/-- Pipeline position of each external command (step numbers from the
source's `--- Step n ---` log lines). -/
def Cmd.stepNum : Cmd → ℕ
  | .osmGet .. => 1
  | .netconvert .. => 2
  | .polyconvert .. => 3
  | .randomTrips .. => 4
  | .duarouter .. => 5

/-- Whether a command is the map-data downloader. -/
def Cmd.isDownload : Cmd → Bool
  | .osmGet .. => true
  | _ => false

/-- The file system is the list of currently existing file names. -/
abbrev FS := List String

/-- `os.path.exists`. -/
def fsExists (fs : FS) (f : String) : Bool := decide (f ∈ fs)

/-- `os.remove`. -/
def fsRemove (fs : FS) (f : String) : FS := fs.erase f

/-- `os.rename a b`: `a` disappears, `b` appears. -/
def fsRename (fs : FS) (a b : String) : FS := b :: fs.erase a

/-- `os.path.join` with the POSIX separator. -/
def joinPath (a b : String) : String := a ++ "/" ++ b

/-- Oracle for everything outside the program: the `SUMO_HOME` environment
variable, each external command's exit status, the files a successful command
creates, and whether an `os.remove` call succeeds. -/
structure Env where
  sumoHomeVar : Option String
  runCommand : Cmd → Bool
  cmdOutputs : Cmd → List String
  removeOk : String → Bool

/-- The hardcoded fallback installation root (source line 126). -/
def fallbackSumoHome : String := "/home/soltani/Downloads/Compressed/sumo-1.22.0"

/-- `SumoWorker.find_sumo_and_add_path` (lines 122-138): take `SUMO_HOME`
verbatim when set; otherwise use the fallback only if it exists. -/
def find_sumo_and_add_path (env : Env) (fs : FS) : Option String :=
  match env.sumoHomeVar with
  | some p => some p
  | none => if fsExists fs fallbackSumoHome then some fallbackSumoHome else none

/-- The downloader invocation (lines 184-188):
`[sys.executable, osmGet.py, --bbox=..., -p filename, -d .]`. -/
def osmGetCmd (sumoHome : String) (cfg : Config) : Cmd :=
  .osmGet (joinPath (joinPath sumoHome "tools") "osmGet.py") cfg.bbox cfg.filename

/-- The netconvert invocation (lines 210-218). -/
def netCmd (cfg : Config) : Cmd :=
  .netconvert (cfg.filename ++ ".osm") (cfg.filename ++ ".net.xml")

/-- The typemap file probed before polyconvert (line 223). -/
def typemapPath (sumoHome : String) : String :=
  joinPath (joinPath (joinPath sumoHome "data") "typemap") "osmPolyconvert.typ.xml"

/-- The polyconvert invocation (line 225). -/
def polyCmd (sumoHome : String) (cfg : Config) : Cmd :=
  .polyconvert (cfg.filename ++ ".osm") (typemapPath sumoHome) (cfg.filename ++ ".poly.xml")

/-- The spawn period `self.end_time / self.num_trips` (line 232), Python true
division modelled over exact rationals. -/
def tripPeriod (end_time num_trips : ℕ) : ℚ := (end_time : ℚ) / (num_trips : ℚ)

/-- The randomTrips invocation (lines 231-241). -/
def tripsCmd (sumoHome : String) (cfg : Config) : Cmd :=
  .randomTrips (joinPath (joinPath sumoHome "tools") "randomTrips.py")
    (cfg.filename ++ ".net.xml") (cfg.filename ++ ".trip.xml")
    cfg.end_time (tripPeriod cfg.end_time cfg.num_trips)

/-- The duarouter invocation (lines 246-251). -/
def duaCmd (cfg : Config) : Cmd :=
  .duarouter (cfg.filename ++ ".net.xml") (cfg.filename ++ ".trip.xml")
    (cfg.filename ++ ".rou.xml")

/-- Whether the first character list is a prefix of the second. -/
def charsPrefix : List Char → List Char → Bool
  | [], _ => true
  | _ :: _, [] => false
  | a :: as, b :: bs => a == b && charsPrefix as bs

/-- Whether a file name matches the glob pattern `<filename>*_bbox.osm.xml`
(line 194): the pattern prefix, anything, then the fixed suffix. -/
def matchesBboxGlob (filename s : String) : Bool :=
  charsPrefix filename.toList s.toList &&
  charsPrefix ("_bbox.osm.xml".toList.reverse) ((s.toList.drop filename.toList.length).reverse)

/-- `glob.glob(f"{filename}*_bbox.osm.xml")`: the existing files matching the
pattern, in directory order. -/
def globBbox (filename : String) (fs : FS) : List String :=
  fs.filter (matchesBboxGlob filename)

/-- Result of the map-data step: either it completed (with the commands it ran
and the resulting file system) or it returned early with `False`. -/
inductive StepRes where
  | ok (tr : List Cmd) (fs : FS)
  | fail (tr : List Cmd) (fs : FS)
deriving DecidableEq

/-- Step 1 of `create_files` (lines 176-206): reuse an existing
`<filename>.osm`, or download and locate/rename the downloader's output. -/
def step1MapData (env : Env) (sumoHome : String) (cfg : Config) (fs : FS) : StepRes :=
  if fsExists fs (cfg.filename ++ ".osm") then .ok [] fs
  else
    if env.runCommand (osmGetCmd sumoHome cfg) then
      match globBbox cfg.filename (fs ++ env.cmdOutputs (osmGetCmd sumoHome cfg)) with
      | g :: _ =>
          .ok [osmGetCmd sumoHome cfg]
            (fsRename
              (if fsExists (fs ++ env.cmdOutputs (osmGetCmd sumoHome cfg)) (cfg.filename ++ ".osm")
               then fsRemove (fs ++ env.cmdOutputs (osmGetCmd sumoHome cfg)) (cfg.filename ++ ".osm")
               else fs ++ env.cmdOutputs (osmGetCmd sumoHome cfg))
              g (cfg.filename ++ ".osm"))
      | [] =>
          if fsExists (fs ++ env.cmdOutputs (osmGetCmd sumoHome cfg)) (cfg.filename ++ ".osm.xml") then
            .ok [osmGetCmd sumoHome cfg]
              (fsRename (fs ++ env.cmdOutputs (osmGetCmd sumoHome cfg))
                (cfg.filename ++ ".osm.xml") (cfg.filename ++ ".osm"))
          else .fail [osmGetCmd sumoHome cfg] (fs ++ env.cmdOutputs (osmGetCmd sumoHome cfg))
    else .fail [osmGetCmd sumoHome cfg] fs

/-- Step 3 of `create_files` (lines 221-227): polyconvert runs only when the
typemap exists, and its exit status is ignored. -/
def polyStep (env : Env) (sumoHome : String) (cfg : Config) (fs : FS) : List Cmd × FS :=
  if fsExists fs (typemapPath sumoHome) then
    if env.runCommand (polyCmd sumoHome cfg) then
      ([polyCmd sumoHome cfg], fs ++ env.cmdOutputs (polyCmd sumoHome cfg))
    else ([polyCmd sumoHome cfg], fs)
  else ([], fs)

/-- The sumo config text rendered by `generate_sumocfg` (lines 295-305). -/
def sumocfgContent (filename : String) (end_time : ℕ) (route_file : String) : String :=
  "<configuration>\n    <input>\n        <net-file value=\"" ++ filename ++
    ".net.xml\"/>\n        <route-files value=\"" ++ route_file ++
    "\"/>\n        <additional-files value=\"" ++ filename ++
    ".poly.xml\"/>\n    </input>\n    <time>\n        <begin value=\"0\"/>\n        <end value=\"" ++
    toString end_time ++ "\"/>\n    </time>\n</configuration>"

/-- The three names `cleanup` tries to delete (line 312). -/
def cleanupFiles (filename : String) : List String :=
  ["routes.rou.xml", filename ++ ".rou.alt.xml", filename ++ ".trip.xml"]

/-- One iteration of the cleanup loop (lines 313-318): delete the file when it
exists, swallowing a failed `os.remove`; record what was removed. -/
def cleanupStep (removeOk : String → Bool) (st : FS × List String) (f : String) :
    FS × List String :=
  if fsExists st.1 f then
    if removeOk f then (fsRemove st.1 f, st.2 ++ [f]) else st
  else st

/-- `SumoWorker.cleanup` (lines 311-318), returning the resulting file system
and the list of files actually removed. -/
def cleanup (removeOk : String → Bool) (filename : String) (fs : FS) : FS × List String :=
  (cleanupFiles filename).foldl (cleanupStep removeOk) (fs, [])

/-- Result of `create_files`: the external commands invoked in order, the final
file system, and the Python return value — `Except.error ()` models the
`ZeroDivisionError` escaping from line 232. -/
structure CFResult where
  trace : List Cmd
  fs : FS
  out : Except Unit (Bool × String × String)

/-- Steps 2-7 of `create_files` (lines 208-264), entered with the trace and
file system left by the map-data step. -/
def afterMapData (env : Env) (sumoHome : String) (cfg : Config)
    (tr1 : List Cmd) (fs1 : FS) : CFResult :=
  if env.runCommand (netCmd cfg) then
    if cfg.num_trips = 0 then
      ⟨(tr1 ++ [netCmd cfg]) ++ (polyStep env sumoHome cfg (fs1 ++ env.cmdOutputs (netCmd cfg))).1,
        (polyStep env sumoHome cfg (fs1 ++ env.cmdOutputs (netCmd cfg))).2, .error ()⟩
    else
      if env.runCommand (tripsCmd sumoHome cfg) then
        if env.runCommand (duaCmd cfg) then
          ⟨((tr1 ++ [netCmd cfg]) ++
              (polyStep env sumoHome cfg (fs1 ++ env.cmdOutputs (netCmd cfg))).1) ++
              [tripsCmd sumoHome cfg, duaCmd cfg],
            (cleanup env.removeOk cfg.filename
              ((((polyStep env sumoHome cfg (fs1 ++ env.cmdOutputs (netCmd cfg))).2 ++
                  env.cmdOutputs (tripsCmd sumoHome cfg)) ++
                  env.cmdOutputs (duaCmd cfg)) ++
                [cfg.filename ++ ".launchd.xml", "omnetpp.ini",
                  cfg.filename ++ ".sumo.cfg"])).1,
            .ok (true, cfg.filename ++ ".launchd.xml", cfg.filename ++ ".sumo.cfg")⟩
        else
          ⟨((tr1 ++ [netCmd cfg]) ++
              (polyStep env sumoHome cfg (fs1 ++ env.cmdOutputs (netCmd cfg))).1) ++
              [tripsCmd sumoHome cfg, duaCmd cfg],
            (polyStep env sumoHome cfg (fs1 ++ env.cmdOutputs (netCmd cfg))).2 ++
              env.cmdOutputs (tripsCmd sumoHome cfg),
            .ok (false, "", "")⟩
      else
        ⟨((tr1 ++ [netCmd cfg]) ++
            (polyStep env sumoHome cfg (fs1 ++ env.cmdOutputs (netCmd cfg))).1) ++
            [tripsCmd sumoHome cfg],
          (polyStep env sumoHome cfg (fs1 ++ env.cmdOutputs (netCmd cfg))).2,
          .ok (false, "", "")⟩
  else ⟨tr1 ++ [netCmd cfg], fs1, .ok (false, "", "")⟩

/-- `SumoWorker.create_files` (lines 168-264). -/
def create_files (env : Env) (sumoHome : String) (cfg : Config) (fs0 : FS) : CFResult :=
  match step1MapData env sumoHome cfg fs0 with
  | .fail tr fs => ⟨tr, fs, .ok (false, "", "")⟩
  | .ok tr1 fs1 => afterMapData env sumoHome cfg tr1 fs1

/-- Final outcome of `SumoWorker.run`: the boolean emitted on
`finished_signal`, plus the trace and file system for inspection. -/
structure WorkerResult where
  success : Bool
  trace : List Cmd
  fs : FS

/-- The boolean `run` emits for a `create_files` return value: the returned
success flag, or `False` when an exception escaped (lines 104-117). -/
def outcomeBool : Except Unit (Bool × String × String) → Bool
  | .ok (b, _, _) => b
  | .error _ => false

/-- `SumoWorker.run` (lines 94-117): locate SUMO, then run `create_files`,
catching any exception as a `False` outcome. -/
def runWorker (env : Env) (cfg : Config) (fs0 : FS) : WorkerResult :=
  match find_sumo_and_add_path env fs0 with
  | none => ⟨false, [], fs0⟩
  | some sumoHome =>
    let r := create_files env sumoHome cfg fs0
    ⟨outcomeBool r.out, r.trace, r.fs⟩

/-- A `QSpinBox` with `setRange lo hi` clamps its value into `[lo, hi]`. -/
def spinValue (lo hi v : ℤ) : ℤ := max lo (min hi v)

/-- The config assembled by `SumoApp.handle_bounds` (lines 385-391) from the
shell widgets: `time_spin.setRange(100, 100000)`,
`trips_spin.setRange(1, 100000)` (lines 337-338). -/
def mkShellConfig (filenameText : String) (bbox : BBox) (timeVal tripsVal : ℤ) : Config :=
  { filename := filenameText.trim
    bbox := bbox
    end_time := (spinValue 100 100000 timeVal).toNat
    num_trips := (spinValue 1 100000 tripsVal).toNat }

/-! ### Helper lemmas about the pipeline -/

lemma stepNum_le_five (c : Cmd) : c.stepNum ≤ 5 := by
  cases c <;> simp [Cmd.stepNum]

lemma isDownload_false_of_two_le (c : Cmd) (h : 2 ≤ c.stepNum) : c.isDownload = false := by
  cases c <;> simp_all [Cmd.stepNum, Cmd.isDownload]

lemma polyStep_fst (env : Env) (sumoHome : String) (cfg : Config) (fs : FS) :
    (polyStep env sumoHome cfg fs).1 = [] ∨
    (polyStep env sumoHome cfg fs).1 = [polyCmd sumoHome cfg] := by
  unfold polyStep
  split_ifs <;> simp

lemma step1_ok_trace (env : Env) (sumoHome : String) (cfg : Config) (fs0 : FS)
    (tr : List Cmd) (fs1 : FS)
    (h : step1MapData env sumoHome cfg fs0 = .ok tr fs1) :
    tr = [] ∨ tr = [osmGetCmd sumoHome cfg] := by
  unfold step1MapData at h
  split at h
  · exact Or.inl (by cases h; rfl)
  · split at h
    · split at h
      · exact Or.inr (by cases h; rfl)
      · split at h
        · exact Or.inr (by cases h; rfl)
        · cases h
    · cases h

lemma find_sumo_some (env : Env) (fs : FS) (p : String) (h : env.sumoHomeVar = some p) :
    find_sumo_and_add_path env fs = some p := by
  unfold find_sumo_and_add_path
  rw [h]

/-! ### Claims -/

/-- `pat` occurs as a contiguous substring of `s`. -/
def strContains (s pat : String) : Prop := ∃ p q, s = p ++ pat ++ q

/-- C9: every longitude reported by the bounding-box selector is normalized
into the half-open interval `[-180, 180)`, an already-normalized value is
returned unchanged, and hence normalization is idempotent. -/
theorem c9_normalizeLon_range_idempotent (lon : ℚ) :
    (-180 ≤ normalizeLon lon ∧ normalizeLon lon < 180) ∧
    (-180 ≤ lon → lon < 180 → normalizeLon lon = lon) ∧
    normalizeLon (normalizeLon lon) = normalizeLon lon := by
  refine ⟨normalizeLon_mem lon, normalizeLon_eq_self lon, ?_⟩
  obtain ⟨h0, h1⟩ := normalizeLon_mem lon
  exact normalizeLon_eq_self _ h0 h1

/-- Witness for C9: a concrete out-of-range longitude lands in range, and a
concrete in-range longitude is left unchanged. -/
theorem c9_normalizeLon_witness : normalizeLon (-10) = -10 :=
  (c9_normalizeLon_range_idempotent (-10)).2.1 (by norm_num) (by norm_num)

/-- C7: the simulator run config rendered for `baseFilename="X"`,
`durationSeconds=7200` (route file `X.rou.xml`, as the pipeline passes it)
contains `<end value="7200"/>`, references `X.net.xml` as the net file, and
declares the time window beginning at 0. -/
theorem c7_sumocfg_rendering :
    strContains (sumocfgContent "X" 7200 "X.rou.xml") "<end value=\"7200\"/>" ∧
    strContains (sumocfgContent "X" 7200 "X.rou.xml") "<net-file value=\"X.net.xml\"/>" ∧
    strContains (sumocfgContent "X" 7200 "X.rou.xml") "<begin value=\"0\"/>" := by
  refine ⟨⟨"<configuration>\n    <input>\n        <net-file value=\"X.net.xml\"/>\n        <route-files value=\"X.rou.xml\"/>\n        <additional-files value=\"X.poly.xml\"/>\n    </input>\n    <time>\n        <begin value=\"0\"/>\n        ",
      "\n    </time>\n</configuration>", ?_⟩,
    ⟨"<configuration>\n    <input>\n        ",
      "\n        <route-files value=\"X.rou.xml\"/>\n        <additional-files value=\"X.poly.xml\"/>\n    </input>\n    <time>\n        <begin value=\"0\"/>\n        <end value=\"7200\"/>\n    </time>\n</configuration>", ?_⟩,
    ⟨"<configuration>\n    <input>\n        <net-file value=\"X.net.xml\"/>\n        <route-files value=\"X.rou.xml\"/>\n        <additional-files value=\"X.poly.xml\"/>\n    </input>\n    <time>\n        ",
      "\n        <end value=\"7200\"/>\n    </time>\n</configuration>", ?_⟩⟩ <;> decide

/-- C4 counterexample: the claim says the run fails when neither the
environment-provided path nor the fallback resolves to an existing directory.
With `SUMO_HOME` set to `/nope` on an empty file system (so neither `/nope`
nor the fallback exists), the code proceeds anyway: external commands are
invoked and the run can even finish successfully. -/
theorem c4_runtime_location_counterexample :
    (Env.mk (some "/nope") (fun _ => true) (fun _ => ["X_bbox.osm.xml"])
        (fun _ => true)).sumoHomeVar = some "/nope" ∧
    fsExists [] "/nope" = false ∧
    fsExists [] fallbackSumoHome = false ∧
    (runWorker
        (Env.mk (some "/nope") (fun _ => true) (fun _ => ["X_bbox.osm.xml"]) (fun _ => true))
        (Config.mk "X" (BBox.mk 1 2 3 4) 3600 1000) []).success = true ∧
    (runWorker
        (Env.mk (some "/nope") (fun _ => true) (fun _ => ["X_bbox.osm.xml"]) (fun _ => true))
        (Config.mk "X" (BBox.mk 1 2 3 4) 3600 1000) []).trace ≠ [] := by
  exact ⟨rfl, by decide, by decide, by decide, by decide⟩

/-- C4 (amended): the runtime-location step takes the tool root from
`SUMO_HOME` verbatim whenever the variable is set (without checking that the
path exists); when it is unset, the hardcoded fallback is used only if it
exists, and otherwise the whole run fails before any external command is
invoked. -/
theorem c4_runtime_location_amended (env : Env) (cfg : Config) (fs0 : FS) :
    (∀ p, env.sumoHomeVar = some p → find_sumo_and_add_path env fs0 = some p) ∧
    (env.sumoHomeVar = none → fsExists fs0 fallbackSumoHome = true →
      find_sumo_and_add_path env fs0 = some fallbackSumoHome) ∧
    (env.sumoHomeVar = none → fsExists fs0 fallbackSumoHome = false →
      (runWorker env cfg fs0).success = false ∧ (runWorker env cfg fs0).trace = []) := by
  refine ⟨fun p hp => find_sumo_some env fs0 p hp, fun hn hf => ?_, fun hn hf => ?_⟩
  · unfold find_sumo_and_add_path
    rw [hn, hf]
    rfl
  · have hfind : find_sumo_and_add_path env fs0 = none := by
      unfold find_sumo_and_add_path
      rw [hn, hf]
      rfl
    unfold runWorker
    rw [hfind]
    exact ⟨rfl, rfl⟩

/-- Witness for C4 (amended): with `SUMO_HOME` unset and the fallback absent,
the signalled outcome is failure and no command was invoked. -/
theorem c4_runtime_location_witness :
    (runWorker (Env.mk none (fun _ => true) (fun _ => []) (fun _ => true))
        (Config.mk "X" (BBox.mk 1 2 3 4) 3600 1000) []).success = false ∧
    (runWorker (Env.mk none (fun _ => true) (fun _ => []) (fun _ => true))
        (Config.mk "X" (BBox.mk 1 2 3 4) 3600 1000) []).trace = [] :=
  (c4_runtime_location_amended
      (Env.mk none (fun _ => true) (fun _ => []) (fun _ => true))
      (Config.mk "X" (BBox.mk 1 2 3 4) 3600 1000) []).2.2 rfl (by decide)

/-- C8 counterexample: the cleanup loop also deletes the fixed-name file
`routes.rou.xml`, which is neither `<base>.trip.xml` nor the
route-alternatives file `<base>.rou.alt.xml`, so cleanup does not delete
"exactly the `.trip.xml` file and the route-alternatives file and nothing
else". -/
theorem c8_cleanup_counterexample :
    (cleanup (fun _ => true) "X" ["routes.rou.xml"]).2 = ["routes.rou.xml"] ∧
    (cleanup (fun _ => true) "X" ["routes.rou.xml"]).1 = [] ∧
    "routes.rou.xml" ≠ "X" ++ ".trip.xml" ∧
    "routes.rou.xml" ≠ "X" ++ ".rou.alt.xml" := by
  exact ⟨by decide, by decide, by decide, by decide⟩

lemma cleanupStep_fst_subset (rOk : String → Bool) (st : FS × List String) (f g : String)
    (hg : g ∈ (cleanupStep rOk st f).1) : g ∈ st.1 := by
  unfold cleanupStep at hg
  split_ifs at hg
  · exact List.mem_of_mem_erase hg
  · exact hg
  · exact hg

lemma cleanupStep_snd (rOk : String → Bool) (st : FS × List String) (f g : String)
    (hg : g ∈ (cleanupStep rOk st f).2) : g ∈ st.2 ∨ (g = f ∧ g ∈ st.1) := by
  unfold cleanupStep at hg
  split_ifs at hg with h1 h2
  · simp only [List.mem_append, List.mem_singleton] at hg
    rcases hg with hg | rfl
    · exact Or.inl hg
    · right
      refine ⟨rfl, ?_⟩
      simpa [fsExists] using h1
  · exact Or.inl hg
  · exact Or.inl hg

lemma cleanupStep_fst_mem_iff (rOk : String → Bool) (st : FS × List String) (f g : String)
    (hne : g ≠ f) : g ∈ (cleanupStep rOk st f).1 ↔ g ∈ st.1 := by
  unfold cleanupStep
  split_ifs
  · simpa [fsRemove] using List.mem_erase_of_ne hne
  · exact Iff.rfl
  · exact Iff.rfl

lemma polyStep_congr (env1 env2 : Env) (sumoHome : String) (cfg : Config) (fs : FS)
    (hrc : env1.runCommand = env2.runCommand) (hco : env1.cmdOutputs = env2.cmdOutputs) :
    polyStep env1 sumoHome cfg fs = polyStep env2 sumoHome cfg fs := by
  unfold polyStep
  rw [hrc, hco]

lemma step1_congr (env1 env2 : Env) (sumoHome : String) (cfg : Config) (fs : FS)
    (hrc : env1.runCommand = env2.runCommand) (hco : env1.cmdOutputs = env2.cmdOutputs) :
    step1MapData env1 sumoHome cfg fs = step1MapData env2 sumoHome cfg fs := by
  unfold step1MapData
  rw [hrc, hco]

lemma afterMapData_out_congr (env1 env2 : Env) (sumoHome : String) (cfg : Config)
    (tr1 : List Cmd) (fs1 : FS)
    (hrc : env1.runCommand = env2.runCommand) (hco : env1.cmdOutputs = env2.cmdOutputs) :
    (afterMapData env1 sumoHome cfg tr1 fs1).out = (afterMapData env2 sumoHome cfg tr1 fs1).out := by
  unfold afterMapData
  rw [hrc, hco,
    polyStep_congr env1 env2 sumoHome cfg (fs1 ++ env2.cmdOutputs (netCmd cfg)) hrc hco]
  split_ifs <;> rfl

lemma create_files_out_congr (env1 env2 : Env) (sumoHome : String) (cfg : Config) (fs0 : FS)
    (hrc : env1.runCommand = env2.runCommand) (hco : env1.cmdOutputs = env2.cmdOutputs) :
    (create_files env1 sumoHome cfg fs0).out = (create_files env2 sumoHome cfg fs0).out := by
  unfold create_files
  rw [step1_congr env1 env2 sumoHome cfg fs0 hrc hco]
  cases h : step1MapData env2 sumoHome cfg fs0 with
  | fail tr fs => rfl
  | ok tr1 fs1 => exact afterMapData_out_congr env1 env2 sumoHome cfg tr1 fs1 hrc hco

lemma find_sumo_congr (env1 env2 : Env) (fs : FS) (hsv : env1.sumoHomeVar = env2.sumoHomeVar) :
    find_sumo_and_add_path env1 fs = find_sumo_and_add_path env2 fs := by
  unfold find_sumo_and_add_path
  rw [hsv]

lemma runWorker_success_congr (env1 env2 : Env) (cfg : Config) (fs0 : FS)
    (hsv : env1.sumoHomeVar = env2.sumoHomeVar)
    (hrc : env1.runCommand = env2.runCommand) (hco : env1.cmdOutputs = env2.cmdOutputs) :
    (runWorker env1 cfg fs0).success = (runWorker env2 cfg fs0).success := by
  unfold runWorker
  rw [find_sumo_congr env1 env2 fs0 hsv]
  cases h : find_sumo_and_add_path env2 fs0 with
  | none => rfl
  | some s =>
    simp only
    rw [create_files_out_congr env1 env2 s cfg fs0 hrc hco]

/-- C8 (amended): cleanup attempts deletion of exactly three fixed names —
`routes.rou.xml` as well as the claimed `<base>.rou.alt.xml` and
`<base>.trip.xml` — so every removed file is one of those three and existed;
files outside this list are untouched; and neither a missing file nor a
failed deletion (nor any behaviour of `os.remove`) changes the run's
outcome, which is independent of the deletion oracle. -/
theorem c8_cleanup_amended (removeOk : String → Bool) (filename : String) (fs : FS) :
    (∀ f ∈ (cleanup removeOk filename fs).2, f ∈ cleanupFiles filename ∧ f ∈ fs) ∧
    (∀ f, f ∉ cleanupFiles filename → ((f ∈ (cleanup removeOk filename fs).1) ↔ f ∈ fs)) ∧
    (∀ env1 env2 : Env, ∀ (cfg : Config) (fs0 : FS),
      env1.sumoHomeVar = env2.sumoHomeVar → env1.runCommand = env2.runCommand →
      env1.cmdOutputs = env2.cmdOutputs →
      (runWorker env1 cfg fs0).success = (runWorker env2 cfg fs0).success) := by
  have hc : cleanup removeOk filename fs =
      cleanupStep removeOk
        (cleanupStep removeOk (cleanupStep removeOk (fs, []) "routes.rou.xml")
          (filename ++ ".rou.alt.xml"))
        (filename ++ ".trip.xml") := rfl
  refine ⟨?_, ?_, ?_⟩
  · intro f hf
    rw [hc] at hf
    rcases cleanupStep_snd _ _ _ _ hf with hf2 | ⟨rfl, hmem⟩
    · rcases cleanupStep_snd _ _ _ _ hf2 with hf3 | ⟨rfl, hmem⟩
      · rcases cleanupStep_snd _ _ _ _ hf3 with hf4 | ⟨rfl, hmem⟩
        · simp at hf4
        · exact ⟨by simp [cleanupFiles], hmem⟩
      · exact ⟨by simp [cleanupFiles], cleanupStep_fst_subset _ _ _ _ hmem⟩
    · exact ⟨by simp [cleanupFiles],
        cleanupStep_fst_subset _ _ _ _ (cleanupStep_fst_subset _ _ _ _ hmem)⟩
  · intro f hnf
    have hne : f ≠ "routes.rou.xml" ∧ f ≠ filename ++ ".rou.alt.xml" ∧
        f ≠ filename ++ ".trip.xml" := by
      simpa [cleanupFiles] using hnf
    rw [hc, cleanupStep_fst_mem_iff _ _ _ _ hne.2.2, cleanupStep_fst_mem_iff _ _ _ _ hne.2.1,
      cleanupStep_fst_mem_iff _ _ _ _ hne.1]
  · intro env1 env2 cfg fs0 hsv hrc hco
    exact runWorker_success_congr env1 env2 cfg fs0 hsv hrc hco

/-- Witness for C8 (amended): a file outside the cleanup list survives
cleanup. -/
theorem c8_cleanup_witness :
    ("keep.txt" ∈ (cleanup (fun _ => true) "X" ["routes.rou.xml", "keep.txt"]).1) ↔
      "keep.txt" ∈ ["routes.rou.xml", "keep.txt"] :=
  (c8_cleanup_amended (fun _ => true) "X" ["routes.rou.xml", "keep.txt"]).2.1
    "keep.txt" (by decide)

lemma afterMapData_trace_sub (env : Env) (sumoHome : String) (cfg : Config)
    (tr1 : List Cmd) (fs1 : FS) :
    ∀ c ∈ (afterMapData env sumoHome cfg tr1 fs1).trace,
      c ∈ tr1 ∨ c ∈ [netCmd cfg, polyCmd sumoHome cfg, tripsCmd sumoHome cfg, duaCmd cfg] := by
  intro c hc
  unfold afterMapData at hc
  rcases polyStep_fst env sumoHome cfg (fs1 ++ env.cmdOutputs (netCmd cfg)) with hp | hp <;>
    rw [hp] at hc <;>
    split_ifs at hc <;>
    (simp only [List.mem_append, List.mem_cons, List.mem_singleton,
      List.not_mem_nil, List.append_nil, or_false, false_or] at hc;
     simp only [List.mem_cons, List.mem_singleton, List.not_mem_nil, or_false];
     tauto)

lemma two_le_stepNum_of_mem_tools (sumoHome : String) (cfg : Config) (c : Cmd)
    (h : c ∈ [netCmd cfg, polyCmd sumoHome cfg, tripsCmd sumoHome cfg, duaCmd cfg]) :
    2 ≤ c.stepNum := by
  rcases (by simpa using h : c = netCmd cfg ∨ c = polyCmd sumoHome cfg ∨
      c = tripsCmd sumoHome cfg ∨ c = duaCmd cfg) with rfl | rfl | rfl | rfl <;>
    simp [netCmd, polyCmd, tripsCmd, duaCmd, Cmd.stepNum]

/-- C3: when `<baseFilename>.osm` already exists, the map-data step invokes no
command at all and leaves the file system untouched (the existing file is
reused), and no downloader command occurs anywhere in the run's trace. -/
theorem c3_existing_osm_skips_download (env : Env) (sumoHome : String) (cfg : Config) (fs : FS)
    (h : fsExists fs (cfg.filename ++ ".osm") = true) :
    step1MapData env sumoHome cfg fs = .ok [] fs ∧
    ∀ c ∈ (runWorker env cfg fs).trace, c.isDownload = false := by
  have h1 : ∀ s : String, step1MapData env s cfg fs = .ok [] fs := by
    intro s
    unfold step1MapData
    rw [h]
    rfl
  refine ⟨h1 sumoHome, ?_⟩
  cases hf : find_sumo_and_add_path env fs with
  | none =>
    intro c hc
    simp [runWorker, hf] at hc
  | some s =>
    intro c hc
    have ht : (runWorker env cfg fs).trace = (afterMapData env s cfg [] fs).trace := by
      simp [runWorker, hf, create_files, h1 s]
    rw [ht] at hc
    rcases afterMapData_trace_sub env s cfg [] fs c hc with h2 | h2
    · simp at h2
    · exact isDownload_false_of_two_le c (two_le_stepNum_of_mem_tools s cfg c h2)

/-- Witness for C3: concrete run with an existing `X.osm`. -/
theorem c3_existing_osm_witness :
    step1MapData (Env.mk (some "S") (fun _ => true) (fun _ => []) (fun _ => true)) "S"
        (Config.mk "X" (BBox.mk 1 2 3 4) 3600 1000) ["X.osm"] =
      .ok [] ["X.osm"] :=
  (c3_existing_osm_skips_download
      (Env.mk (some "S") (fun _ => true) (fun _ => []) (fun _ => true)) "S"
      (Config.mk "X" (BBox.mk 1 2 3 4) 3600 1000) ["X.osm"] (by decide)).1

/-- C5: after a successful download command, the step first looks for a file
matching `<baseFilename>*_bbox.osm.xml` and renames the first match to
`<baseFilename>.osm` (removing a pre-existing target first); failing that it
falls back to the exact name `<baseFilename>.osm.xml`; and if neither exists
the step fails and the run's outcome is failure. -/
theorem c5_download_output_discovery (env : Env) (cfg : Config) (fs0 : FS) (sumoHome : String)
    (hno : fsExists fs0 (cfg.filename ++ ".osm") = false)
    (hdl : env.runCommand (osmGetCmd sumoHome cfg) = true) :
    (∀ g gs, globBbox cfg.filename (fs0 ++ env.cmdOutputs (osmGetCmd sumoHome cfg)) = g :: gs →
      step1MapData env sumoHome cfg fs0 =
        .ok [osmGetCmd sumoHome cfg]
          (fsRename
            (if fsExists (fs0 ++ env.cmdOutputs (osmGetCmd sumoHome cfg)) (cfg.filename ++ ".osm")
             then fsRemove (fs0 ++ env.cmdOutputs (osmGetCmd sumoHome cfg)) (cfg.filename ++ ".osm")
             else fs0 ++ env.cmdOutputs (osmGetCmd sumoHome cfg))
            g (cfg.filename ++ ".osm"))) ∧
    (globBbox cfg.filename (fs0 ++ env.cmdOutputs (osmGetCmd sumoHome cfg)) = [] →
      fsExists (fs0 ++ env.cmdOutputs (osmGetCmd sumoHome cfg)) (cfg.filename ++ ".osm.xml") = true →
      step1MapData env sumoHome cfg fs0 =
        .ok [osmGetCmd sumoHome cfg]
          (fsRename (fs0 ++ env.cmdOutputs (osmGetCmd sumoHome cfg))
            (cfg.filename ++ ".osm.xml") (cfg.filename ++ ".osm"))) ∧
    (globBbox cfg.filename (fs0 ++ env.cmdOutputs (osmGetCmd sumoHome cfg)) = [] →
      fsExists (fs0 ++ env.cmdOutputs (osmGetCmd sumoHome cfg)) (cfg.filename ++ ".osm.xml") = false →
      step1MapData env sumoHome cfg fs0 =
        .fail [osmGetCmd sumoHome cfg] (fs0 ++ env.cmdOutputs (osmGetCmd sumoHome cfg)) ∧
      (env.sumoHomeVar = some sumoHome → (runWorker env cfg fs0).success = false)) := by
  refine ⟨?_, ?_, ?_⟩
  · intro g gs hg
    unfold step1MapData
    rw [hno, hdl, hg]
    rfl
  · intro h0 hx
    unfold step1MapData
    rw [hno, hdl, h0, hx]
    rfl
  · intro h0 hx
    have hstep : step1MapData env sumoHome cfg fs0 =
        .fail [osmGetCmd sumoHome cfg] (fs0 ++ env.cmdOutputs (osmGetCmd sumoHome cfg)) := by
      unfold step1MapData
      rw [hno, hdl, h0, hx]
      rfl
    refine ⟨hstep, fun hsumo => ?_⟩
    simp [runWorker, find_sumo_some env fs0 sumoHome hsumo, create_files, hstep, outcomeBool]

/-- Witness for C5: a concrete download whose output matches the glob pattern
is renamed to the canonical name. -/
theorem c5_download_output_witness :
    step1MapData (Env.mk (some "S") (fun _ => true) (fun _ => ["Y_bbox.osm.xml"]) (fun _ => true))
        "S" (Config.mk "Y" (BBox.mk 1 2 3 4) 3600 1000) [] =
      .ok [osmGetCmd "S" (Config.mk "Y" (BBox.mk 1 2 3 4) 3600 1000)] ["Y.osm"] := by
  have h := (c5_download_output_discovery
      (Env.mk (some "S") (fun _ => true) (fun _ => ["Y_bbox.osm.xml"]) (fun _ => true))
      (Config.mk "Y" (BBox.mk 1 2 3 4) 3600 1000) [] "S" (by decide) (by decide)).1
      "Y_bbox.osm.xml" [] (by decide)
  exact h.trans (by decide)

/-- The four mandatory external steps of the pipeline. -/
inductive MStep where
  | download
  | net
  | trips
  | dua
deriving DecidableEq

/-- Pipeline position of each mandatory step. -/
def MStep.ord : MStep → ℕ
  | .download => 1
  | .net => 2
  | .trips => 4
  | .dua => 5

/-- C1: whenever a mandatory step (map-data download, network conversion, trip
generation, route computation) is reached and its external command exits
non-zero, the final outcome signal is failure and the trace contains no
command of any later step. -/
theorem c1_mandatory_failure_aborts (env : Env) (cfg : Config) (fs0 : FS) (sumoHome : String)
    (s : MStep)
    (hsumo : env.sumoHomeVar = some sumoHome)
    (hreach : match s with
      | .download => fsExists fs0 (cfg.filename ++ ".osm") = false ∧
          env.runCommand (osmGetCmd sumoHome cfg) = false
      | .net => (∃ tr1 fs1, step1MapData env sumoHome cfg fs0 = .ok tr1 fs1) ∧
          env.runCommand (netCmd cfg) = false
      | .trips => (∃ tr1 fs1, step1MapData env sumoHome cfg fs0 = .ok tr1 fs1) ∧
          env.runCommand (netCmd cfg) = true ∧ cfg.num_trips ≠ 0 ∧
          env.runCommand (tripsCmd sumoHome cfg) = false
      | .dua => (∃ tr1 fs1, step1MapData env sumoHome cfg fs0 = .ok tr1 fs1) ∧
          env.runCommand (netCmd cfg) = true ∧ cfg.num_trips ≠ 0 ∧
          env.runCommand (tripsCmd sumoHome cfg) = true ∧
          env.runCommand (duaCmd cfg) = false) :
    (runWorker env cfg fs0).success = false ∧
    ∀ c ∈ (runWorker env cfg fs0).trace, c.stepNum ≤ s.ord := by
  have hfind := find_sumo_some env fs0 sumoHome hsumo
  cases s with
  | download =>
    obtain ⟨hno, hdl⟩ := hreach
    have hstep : step1MapData env sumoHome cfg fs0 = .fail [osmGetCmd sumoHome cfg] fs0 := by
      unfold step1MapData
      rw [hno, hdl]
      rfl
    refine ⟨by simp [runWorker, hfind, create_files, hstep, outcomeBool], ?_⟩
    intro c hc
    have ht : (runWorker env cfg fs0).trace = [osmGetCmd sumoHome cfg] := by
      simp [runWorker, hfind, create_files, hstep]
    rw [ht] at hc
    simp at hc
    subst hc
    simp [osmGetCmd, Cmd.stepNum, MStep.ord]
  | net =>
    obtain ⟨⟨tr1, fs1, hstep⟩, hnet⟩ := hreach
    have hsucc : (runWorker env cfg fs0).success = false := by
      simp [runWorker, hfind, create_files, hstep, afterMapData, hnet, outcomeBool]
    have htr : (runWorker env cfg fs0).trace = tr1 ++ [netCmd cfg] := by
      simp [runWorker, hfind, create_files, hstep, afterMapData, hnet]
    refine ⟨hsucc, ?_⟩
    intro c hc
    rw [htr] at hc
    rcases List.mem_append.mp hc with hc | hc
    · rcases step1_ok_trace env sumoHome cfg fs0 tr1 fs1 hstep with h | h <;> subst h
      · simp at hc
      · simp at hc
        subst hc
        simp [osmGetCmd, Cmd.stepNum, MStep.ord]
    · simp at hc
      subst hc
      simp [netCmd, Cmd.stepNum, MStep.ord]
  | trips =>
    obtain ⟨⟨tr1, fs1, hstep⟩, hnet, hnt, htrips⟩ := hreach
    have hsucc : (runWorker env cfg fs0).success = false := by
      simp [runWorker, hfind, create_files, hstep, afterMapData, hnet, hnt, htrips, outcomeBool]
    have htr : (runWorker env cfg fs0).trace =
        ((tr1 ++ [netCmd cfg]) ++
            (polyStep env sumoHome cfg (fs1 ++ env.cmdOutputs (netCmd cfg))).1) ++
          [tripsCmd sumoHome cfg] := by
      simp [runWorker, hfind, create_files, hstep, afterMapData, hnet, hnt, htrips]
    refine ⟨hsucc, ?_⟩
    intro c hc
    rw [htr] at hc
    rcases List.mem_append.mp hc with hc | hc
    · rcases List.mem_append.mp hc with hc | hc
      · rcases List.mem_append.mp hc with hc | hc
        · rcases step1_ok_trace env sumoHome cfg fs0 tr1 fs1 hstep with h | h <;> subst h
          · simp at hc
          · simp at hc
            subst hc
            simp [osmGetCmd, Cmd.stepNum, MStep.ord]
        · simp at hc
          subst hc
          simp [netCmd, Cmd.stepNum, MStep.ord]
      · rcases polyStep_fst env sumoHome cfg (fs1 ++ env.cmdOutputs (netCmd cfg)) with h | h <;>
          rw [h] at hc
        · simp at hc
        · simp at hc
          subst hc
          simp [polyCmd, Cmd.stepNum, MStep.ord]
    · simp at hc
      subst hc
      simp [tripsCmd, Cmd.stepNum, MStep.ord]
  | dua =>
    obtain ⟨⟨tr1, fs1, hstep⟩, hnet, hnt, htrips, hdua⟩ := hreach
    have hsucc : (runWorker env cfg fs0).success = false := by
      simp [runWorker, hfind, create_files, hstep, afterMapData, hnet, hnt, htrips, hdua,
        outcomeBool]
    exact ⟨hsucc, fun c _ => (stepNum_le_five c).trans (by simp [MStep.ord])⟩

/-- Witness for C1: a concrete run where netconvert fails; the outcome is
failure. -/
theorem c1_mandatory_failure_witness :
    (runWorker (Env.mk (some "S") (fun c => c.stepNum != 2) (fun _ => []) (fun _ => true))
        (Config.mk "X" (BBox.mk 1 2 3 4) 3600 1000) ["X.osm"]).success = false :=
  (c1_mandatory_failure_aborts
      (Env.mk (some "S") (fun c => c.stepNum != 2) (fun _ => []) (fun _ => true))
      (Config.mk "X" (BBox.mk 1 2 3 4) 3600 1000) ["X.osm"] "S" MStep.net rfl
      ⟨⟨[], ["X.osm"], by decide⟩, by decide⟩).1

/-- C2: a failing optional polygon step (typemap absent, or polyconvert
exiting non-zero) does not stop the pipeline: trip generation is still
reached, and when the remaining mandatory commands succeed the final outcome
is success. -/
theorem c2_optional_poly_failure_continues (env : Env) (cfg : Config) (fs0 : FS)
    (sumoHome : String) (tr1 : List Cmd) (fs1 : FS)
    (hsumo : env.sumoHomeVar = some sumoHome)
    (hstep : step1MapData env sumoHome cfg fs0 = .ok tr1 fs1)
    (hnet : env.runCommand (netCmd cfg) = true)
    (_hpoly : fsExists (fs1 ++ env.cmdOutputs (netCmd cfg)) (typemapPath sumoHome) = false ∨
      env.runCommand (polyCmd sumoHome cfg) = false)
    (hnt : cfg.num_trips ≠ 0)
    (htrips : env.runCommand (tripsCmd sumoHome cfg) = true)
    (hdua : env.runCommand (duaCmd cfg) = true) :
    (runWorker env cfg fs0).success = true ∧
    tripsCmd sumoHome cfg ∈ (runWorker env cfg fs0).trace := by
  have hfind := find_sumo_some env fs0 sumoHome hsumo
  have hsucc : (runWorker env cfg fs0).success = true := by
    simp [runWorker, hfind, create_files, hstep, afterMapData, hnet, hnt, htrips, hdua,
      outcomeBool]
  have htr : (runWorker env cfg fs0).trace =
      ((tr1 ++ [netCmd cfg]) ++
          (polyStep env sumoHome cfg (fs1 ++ env.cmdOutputs (netCmd cfg))).1) ++
        [tripsCmd sumoHome cfg, duaCmd cfg] := by
    simp [runWorker, hfind, create_files, hstep, afterMapData, hnet, hnt, htrips, hdua]
  refine ⟨hsucc, ?_⟩
  rw [htr]
  simp

/-- Witness for C2: polyconvert fails on a concrete run, yet the outcome is
success and trip generation ran. -/
theorem c2_optional_poly_witness :
    (runWorker (Env.mk (some "S") (fun c => c.stepNum != 3) (fun _ => []) (fun _ => true))
        (Config.mk "X" (BBox.mk 1 2 3 4) 3600 1000)
        ["X.osm", "S/data/typemap/osmPolyconvert.typ.xml"]).success = true ∧
    tripsCmd "S" (Config.mk "X" (BBox.mk 1 2 3 4) 3600 1000) ∈
      (runWorker (Env.mk (some "S") (fun c => c.stepNum != 3) (fun _ => []) (fun _ => true))
        (Config.mk "X" (BBox.mk 1 2 3 4) 3600 1000)
        ["X.osm", "S/data/typemap/osmPolyconvert.typ.xml"]).trace :=
  c2_optional_poly_failure_continues
    (Env.mk (some "S") (fun c => c.stepNum != 3) (fun _ => []) (fun _ => true))
    (Config.mk "X" (BBox.mk 1 2 3 4) 3600 1000)
    ["X.osm", "S/data/typemap/osmPolyconvert.typ.xml"] "S" []
    ["X.osm", "S/data/typemap/osmPolyconvert.typ.xml"] rfl (by decide) (by decide)
    (Or.inr (by decide)) (by decide) (by decide) (by decide)

/-- C6: whenever trip generation is reached, the spawn-period argument handed
to the external trip generator is exactly `durationSeconds / vehicleCount`,
and in particular `tripPeriod 3600 1000 = 3.6`. -/
theorem c6_spawn_period_argument (env : Env) (cfg : Config) (fs0 : FS) (sumoHome : String)
    (tr1 : List Cmd) (fs1 : FS)
    (hsumo : env.sumoHomeVar = some sumoHome)
    (hstep : step1MapData env sumoHome cfg fs0 = .ok tr1 fs1)
    (hnet : env.runCommand (netCmd cfg) = true)
    (hnt : cfg.num_trips ≠ 0) :
    Cmd.randomTrips (joinPath (joinPath sumoHome "tools") "randomTrips.py")
        (cfg.filename ++ ".net.xml") (cfg.filename ++ ".trip.xml") cfg.end_time
        ((cfg.end_time : ℚ) / (cfg.num_trips : ℚ)) ∈ (runWorker env cfg fs0).trace ∧
    tripPeriod 3600 1000 = 3.6 := by
  have hfind := find_sumo_some env fs0 sumoHome hsumo
  constructor
  · show tripsCmd sumoHome cfg ∈ (runWorker env cfg fs0).trace
    cases htrips : env.runCommand (tripsCmd sumoHome cfg) with
    | false =>
      have htr : (runWorker env cfg fs0).trace =
          ((tr1 ++ [netCmd cfg]) ++
              (polyStep env sumoHome cfg (fs1 ++ env.cmdOutputs (netCmd cfg))).1) ++
            [tripsCmd sumoHome cfg] := by
        simp [runWorker, hfind, create_files, hstep, afterMapData, hnet, hnt, htrips]
      rw [htr]
      simp
    | true =>
      cases hdua : env.runCommand (duaCmd cfg) with
      | false =>
        have htr : (runWorker env cfg fs0).trace =
            ((tr1 ++ [netCmd cfg]) ++
                (polyStep env sumoHome cfg (fs1 ++ env.cmdOutputs (netCmd cfg))).1) ++
              [tripsCmd sumoHome cfg, duaCmd cfg] := by
          simp [runWorker, hfind, create_files, hstep, afterMapData, hnet, hnt, htrips, hdua]
        rw [htr]
        simp
      | true =>
        have htr : (runWorker env cfg fs0).trace =
            ((tr1 ++ [netCmd cfg]) ++
                (polyStep env sumoHome cfg (fs1 ++ env.cmdOutputs (netCmd cfg))).1) ++
              [tripsCmd sumoHome cfg, duaCmd cfg] := by
          simp [runWorker, hfind, create_files, hstep, afterMapData, hnet, hnt, htrips, hdua]
        rw [htr]
        simp
  · norm_num [tripPeriod]

/-- Witness for C6: the concrete spawn-period command for
`durationSeconds = 3600`, `vehicleCount = 1000` appears in a concrete run. -/
theorem c6_spawn_period_witness :
    Cmd.randomTrips (joinPath (joinPath "S" "tools") "randomTrips.py")
        ("X" ++ ".net.xml") ("X" ++ ".trip.xml") 3600
        (((3600 : ℕ) : ℚ) / ((1000 : ℕ) : ℚ)) ∈
      (runWorker (Env.mk (some "S") (fun _ => true) (fun _ => []) (fun _ => true))
        (Config.mk "X" (BBox.mk 1 2 3 4) 3600 1000) ["X.osm"]).trace ∧
    tripPeriod 3600 1000 = 3.6 :=
  c6_spawn_period_argument
    (Env.mk (some "S") (fun _ => true) (fun _ => []) (fun _ => true))
    (Config.mk "X" (BBox.mk 1 2 3 4) 3600 1000) ["X.osm"] "S" [] ["X.osm"]
    rfl (by decide) (by decide) (by decide)

/-- C10: the spawn-period division cannot raise: whenever the configured
vehicle count is at least 1 — as guaranteed by the shell's spinner range
`setRange(1, 100000)` — `create_files` never ends in the
division-by-zero exception, and any config built by the shell satisfies
this unconditionally. -/
theorem c10_spawn_division_safe :
    (∀ (env : Env) (sumoHome : String) (cfg : Config) (fs0 : FS), 1 ≤ cfg.num_trips →
      (create_files env sumoHome cfg fs0).out ≠ Except.error ()) ∧
    (∀ (ft : String) (bb : BBox) (tv nv : ℤ) (env : Env) (sumoHome : String) (fs0 : FS),
      (create_files env sumoHome (mkShellConfig ft bb tv nv) fs0).out ≠ Except.error ()) := by
  have main : ∀ (env : Env) (sumoHome : String) (cfg : Config) (fs0 : FS), 1 ≤ cfg.num_trips →
      (create_files env sumoHome cfg fs0).out ≠ Except.error () := by
    intro env sumoHome cfg fs0 h1
    have hnt : ¬(cfg.num_trips = 0) := by omega
    cases hstep : step1MapData env sumoHome cfg fs0 with
    | fail tr fs => simp [create_files, hstep]
    | ok tr1 fs1 =>
      simp only [create_files, hstep]
      unfold afterMapData
      split_ifs <;> simp_all
  refine ⟨main, fun ft bb tv nv env sumoHome fs0 => main env sumoHome _ fs0 ?_⟩
  simp only [mkShellConfig, spinValue]
  omega

/-- Witness for C10: a concrete config with a positive vehicle count never
hits the division-by-zero exception. -/
theorem c10_spawn_division_witness :
    1 ≤ (Config.mk "X" (BBox.mk 1 2 3 4) 3600 1000).num_trips ∧
    (create_files (Env.mk (some "S") (fun _ => true) (fun _ => []) (fun _ => true)) "S"
        (Config.mk "X" (BBox.mk 1 2 3 4) 3600 1000) ["X.osm"]).out ≠ Except.error () :=
  ⟨by decide,
    c10_spawn_division_safe.1
      (Env.mk (some "S") (fun _ => true) (fun _ => []) (fun _ => true)) "S"
      (Config.mk "X" (BBox.mk 1 2 3 4) 3600 1000) ["X.osm"] (by decide)⟩

end SumoGen
